import Mathlib

/-!
Shallow embedding of the static-file HTTP server in src/http.cpp.

Byte strings (std::string, file contents, wire responses) are modelled as
Lean String values, one Char per byte; all bytes handled by the program are
ASCII, so String.length coincides with the C++ byte length.

The filesystem and the wall clock are external to the program, so they enter
the model as parameters: an FS structure supplies the two filesystem
operations the code performs (std::filesystem::canonical, which throws on
failure and is therefore Option-valued, and opening plus fully reading a
file via std::ifstream), and the Date header value produced by
getTimeString is passed in as a string.

An exception escaping handleGetRequest (std::filesystem::canonical throws a
filesystem_error on a nonexistent path, and there is no try/catch inside
handleClient or handleGetRequest) propagates out of the thread function,
which in C++ calls std::terminate; the model records this as Outcome.crash,
in which case the close call on line 85 of src/http.cpp is never executed.
-/

set_option maxRecDepth 8000

namespace CppHttpServer

/-- Whitespace for the default classic locale used by istringstream
extraction: space, tab, newline, vertical tab, form feed, carriage return. -/
def isStreamSpace (c : Char) : Bool :=
  c = ' ' || c = '\t' || c = '\n' || c = Char.ofNat 11 || c = Char.ofNat 12 || c = '\r'

/-- One application of operator>> on a string stream: skip leading
whitespace, then take the maximal run of non-whitespace characters.
Returns the extracted token and the remaining characters. On an exhausted
stream the token is empty, matching C++ where a failed extraction leaves
the (empty-initialized) std::string unchanged. -/
def token (cs : List Char) : List Char × List Char :=
  let rest := cs.dropWhile isStreamSpace
  (rest.takeWhile (fun c => !isStreamSpace c), rest.dropWhile (fun c => !isStreamSpace c))

/-- std::getline on the request: everything before the first newline
(the carriage return, if any, is retained, as in the source). -/
def firstLine (request : String) : List Char :=
  request.data.takeWhile (fun c => !(c = '\n'))

/-- Lines 69-71 of src/http.cpp: request_line_stream >> method >> path >> protocol. -/
def parseRequestLine (line : List Char) : String × String × String :=
  let t1 := token line
  let t2 := token t1.2
  let t3 := token t2.2
  (String.mk t1.1, String.mk t2.1, String.mk t3.1)

/-- setupMimeTypes, lines 24-36: the fixed extension-to-content-type map.
std::map keys are byte strings; they are modelled as character lists. -/
def mime_types : List (List Char × String) := [
  (".html".data, "text/html"),
  (".css".data, "text/css"),
  (".js".data, "application/javascript"),
  (".json".data, "application/json"),
  (".png".data, "image/png"),
  (".jpg".data, "image/jpeg"),
  (".jpeg".data, "image/jpeg"),
  (".gif".data, "image/gif"),
  (".txt".data, "text/plain")]

/-- std::map::find followed by the end() test: association lookup under
exact key equality. -/
def assocFind (key : List Char) : List (List Char × String) → Option String
  | [] => none
  | (k, v) :: rest => if key = k then some v else assocFind key rest

/-- path.substr(path.find_last_of dot): the suffix of the character list
starting at the last occurrence of the dot character (the dot included),
or none when no dot occurs (std::string::npos). -/
def extFrom : List Char → Option (List Char)
  | [] => none
  | c :: rest =>
    match extFrom rest with
    | some e => some e
    | none => if c = '.' then some (c :: rest) else none

/-- getMimeType, lines 38-48 of src/http.cpp. -/
def getMimeType (path : String) : String :=
  match extFrom path.data with
  | some ext =>
    match assocFind ext mime_types with
    | some t => t
    | none => "application/octet-stream"
  | none => "application/octet-stream"

/-- The body of sendError, line 133. -/
def errorBody (code : Nat) (msg : String) : String :=
  "<html><body><h1>" ++ toString code ++ " " ++ msg ++ "</h1></body></html>"

/-- sendError header bytes up to and including the Date field name. -/
def sendErrorHead (code : Nat) (msg : String) : String :=
  "HTTP/1.1 " ++ toString code ++ " " ++ msg ++ "\r\n" ++
  "Content-Type: text/html\r\n" ++
  "Content-Length: " ++ toString (errorBody code msg).length ++ "\r\n" ++
  "Date: "

/-- sendError bytes after the Date value: remaining headers, blank line, body. -/
def sendErrorTail (code : Nat) (msg : String) : String :=
  "\r\n" ++
  "Server: CPP-HTTP-Server/1.0\r\n" ++
  "Connection: close\r\n\r\n" ++
  errorBody code msg

/-- sendError, lines 132-146 of src/http.cpp: the full byte sequence sent. -/
def sendError (code : Nat) (msg : String) (date : String) : String :=
  sendErrorHead code msg ++ date ++ sendErrorTail code msg

/-- The 200 header bytes of handleGetRequest (lines 115-120) up to and
including the Date field name. -/
def okHead (mime : String) (file_size : Nat) : String :=
  "HTTP/1.1 200 OK\r\n" ++
  "Content-Type: " ++ mime ++ "\r\n" ++
  "Content-Length: " ++ toString file_size ++ "\r\n" ++
  "Date: "

/-- The 200 header bytes after the Date value: remaining headers and the
blank line; the file body follows. -/
def okTail : String :=
  "\r\n" ++
  "Server: CPP-HTTP-Server/1.0\r\n" ++
  "Connection: close\r\n\r\n"

/-- The fixed 405 response of handleClient, lines 77-81 of src/http.cpp. -/
def methodNotAllowedResponse : String :=
  "HTTP/1.1 405 Method Not Allowed\r\n" ++
  "Content-Type: text/plain\r\n" ++
  "Content-Length: 21\r\n\r\n" ++
  "Method Not Supported\n"

/-- The external filesystem, as the two operations the code performs on it:
canonical is std::filesystem::canonical (none models the filesystem_error
it throws, e.g. on a nonexistent path), and readFile models opening a file
with std::ifstream in binary mode and reading it to the end (none models an
open failure, i.e. the !file test on line 103 firing). -/
structure FS where
  canonical : String → Option String
  readFile : String → Option String

/-- Line 90 of src/http.cpp: web_root + (path == slash ? slash-index.html : path). -/
def fileSystemPath (web_root : String) (path : String) : String :=
  web_root ++ (if path = "/" then "/index.html" else path)

/-- The containment test of line 96: requested.find(canonical) == 0, i.e.
the canonical root occurs at position zero of the requested path, i.e. it
is a textual prefix of it. -/
def findPos0 : List Char → List Char → Bool
  | [], _ => true
  | _ :: _, [] => false
  | c :: cs, d :: ds => c == d && findPos0 cs ds

/-- Recursion core for the chunked send: structural recursion on a fuel
argument that bounds the remaining length, so the kernel can evaluate it;
chunksGo fuel cs equals the true chunking whenever cs.length is at most fuel. -/
def chunksGo : Nat → List Char → List (List Char)
  | _, [] => []
  | 0, _ :: _ => []
  | fuel + 1, c :: rest => ((c :: rest).take 4096) :: chunksGo fuel ((c :: rest).drop 4096)

/-- The while loop of lines 126-129: the file body split into successive
chunks of at most 4096 bytes, each sent in order. -/
def chunks4096 (cs : List Char) : List (List Char) :=
  chunksGo cs.length cs

/-- handleGetRequest, lines 88-130 of src/http.cpp. The returned value is
the byte sequence sent on the socket; none models an exception escaping
(canonical throwing), in which case nothing is sent and control never
returns to handleClient. -/
def handleGetRequest (fs : FS) (web_root : String) (date : String) (path : String) :
    Option String :=
  let file_path := fileSystemPath web_root path
  match fs.canonical web_root with
  | none => none
  | some canonical_path =>
    match fs.canonical file_path with
    | none => none
    | some requested_path =>
      if findPos0 canonical_path.data requested_path.data then
        match fs.readFile file_path with
        | none => some (sendError 404 ("Not Found") date)
        | some contents =>
          some (okHead (getMimeType file_path) contents.length ++ date ++
            (okTail ++ String.mk (chunks4096 contents.data).flatten))
      else
        some (sendError 403 ("Forbidden") date)

/-- The fate of one accepted connection: either an exception escaped the
handler (std::terminate, the close on line 85 never runs), or the given
bytes were sent and then the socket was closed. -/
inductive Outcome where
  | crash : Outcome
  | closed : String → Outcome
deriving DecidableEq

/-- handleClient, lines 58-86 of src/http.cpp. bytes_read is the value
returned by read; request is the std::string built from the buffer. -/
def handleClient (fs : FS) (web_root : String) (date : String)
    (bytes_read : Int) (request : String) : Outcome :=
  if 0 < bytes_read then
    let parsed := parseRequestLine (firstLine request)
    if parsed.1 = "GET" then
      match handleGetRequest fs web_root date parsed.2.1 with
      | none => Outcome.crash
      | some sent => Outcome.closed sent
    else
      Outcome.closed methodNotAllowedResponse
  else
    Outcome.closed ""

/-- A filesystem with an existing document root directory and nothing else:
canonical succeeds only on the root, opening any path fails. -/
def emptyRootFS : FS where
  canonical := fun p => if p = "./www" then some ("/srv/www") else none
  readFile := fun _ => none

/-- A filesystem on which the traversal request of the spec scenario
canonicalizes outside the root, and on which every open succeeds, so that
a response independent of the file contents shows the file is never read. -/
def traversalFS : FS where
  canonical := fun p =>
    if p = "./www" then some ("/srv/www")
    else if p = "./www/../../etc/passwd" then some ("/etc/passwd")
    else none
  readFile := fun _ => some ("TOP-SECRET")

/-- A filesystem holding one ten-byte text file under the root. -/
def helloFS : FS where
  canonical := fun p =>
    if p = "/www" then some ("/www")
    else if p = "/www/hello.txt" then some ("/www/hello.txt")
    else none
  readFile := fun p => if p = "/www/hello.txt" then some ("hello1234\n") else none

/-- The extension-to-content-type pairs exactly as the spec section 4.1
words them: keys are the substrings after the dot (html, css, js, json,
png, jpg, jpeg, gif, txt), without the dot itself. -/
def spec_extension_map : List (List Char × String) := [
  ("html".data, "text/html"),
  ("css".data, "text/css"),
  ("js".data, "application/javascript"),
  ("json".data, "application/json"),
  ("png".data, "image/png"),
  ("jpg".data, "image/jpeg"),
  ("jpeg".data, "image/jpeg"),
  ("gif".data, "image/gif"),
  ("txt".data, "text/plain")]

/-- Spec wording of extension extraction: the substring after the last dot
in the path, none when the path contains no dot. -/
def afterLastDot : List Char → Option (List Char)
  | [] => none
  | c :: rest =>
    match afterLastDot rest with
    | some e => some e
    | none => if c = '.' then some rest else none

/-- MimeRegistry lookup exactly as the spec section 4.1 words it: extract
the substring after the last dot, look it up in the fixed mapping, fall
back to the generic octet-stream type when it is absent or the path has no
extension. -/
def specMimeLookup (path : String) : String :=
  match afterLastDot path.data with
  | some e =>
    match assocFind e spec_extension_map with
    | some t => t
    | none => "application/octet-stream"
  | none => "application/octet-stream"

/-- Two character lists that agree after mapping every character to lower
case: the relation a case-insensitive comparison would identify. -/
def lowerEq (a b : List Char) : Prop :=
  a.map Char.toLower = b.map Char.toLower

/-- Concatenating the chunks produced by chunksGo restores the original
byte sequence, provided the fuel covers the length. -/
theorem chunksGo_flatten (fuel : Nat) : ∀ cs : List Char, cs.length ≤ fuel →
    (chunksGo fuel cs).flatten = cs := by
  induction fuel with
  | zero =>
    intro cs h
    cases cs with
    | nil => rfl
    | cons c rest => simp at h
  | succ n ih =>
    intro cs h
    cases cs with
    | nil => rfl
    | cons c rest =>
      simp only [chunksGo, List.flatten_cons]
      rw [ih]
      · exact List.take_append_drop 4096 (c :: rest)
      · simp only [List.length_drop, List.length_cons]
        simp only [List.length_cons] at h
        omega

/-- The streamed chunk sequence concatenates back to the exact file body. -/
theorem chunks4096_flatten (cs : List Char) : (chunks4096 cs).flatten = cs :=
  chunksGo_flatten cs.length cs (Nat.le_refl _)

/-- C1: the claim fails on the code. At the concrete failing input, a GET
for a nonexistent file under an existing document root, the call
std::filesystem::canonical on line 94 of src/http.cpp throws (the modelled
canonical returns none) and no try/catch exists in handleGetRequest or
handleClient, so no 404 response is produced and the exception escapes the
connection handler (std::terminate in the thread): the outcome is crash,
not a recovered NotFound. -/
theorem canonicalFailureCrashes :
    handleClient emptyRootFS ("./www") ("Sat, 11 Oct 2025 12:00:00 GMT") 40
      ("GET /missing.txt HTTP/1.1\r\nHost: a\r\n\r\n") = Outcome.crash := by
  decide

/-- C6: the claim fails on the code. The two read-failure inputs (zero and
negative bytes read) do skip directly to close with nothing sent, but on
the third input, a GET whose path makes canonicalization throw, the
exception escapes handleClient, so the close call on line 85 of
src/http.cpp is never executed: the connection is not closed on that error
path. -/
theorem closeSkippedOnCrash :
    handleClient emptyRootFS ("./www") ("D") 0 ("") = Outcome.closed ("") ∧
    handleClient emptyRootFS ("./www") ("D") (-1) ("GET / HTTP/1.1\r\n") = Outcome.closed ("") ∧
    handleClient emptyRootFS ("./www") ("D") 27 ("GET /nosuch.txt HTTP/1.1\r\n") = Outcome.crash := by
  decide

/-- C2: when both canonicalizations succeed and the canonical candidate
does not start with the canonical root (the containment test of line 96 is
the textual-prefix test findPos0), the reply is exactly the 403 Forbidden
error response. The filesystem fs is arbitrary, in particular its readFile
component, so the conclusion being independent of readFile shows the
underlying file is never opened. -/
theorem forbiddenOutsideRoot (fs : FS) (web_root date path croot cpath : String)
    (h1 : fs.canonical web_root = some croot)
    (h2 : fs.canonical (fileSystemPath web_root path) = some cpath)
    (h3 : findPos0 croot.data cpath.data = false) :
    handleGetRequest fs web_root date path = some (sendError 403 ("Forbidden") date) := by
  simp [handleGetRequest, h1, h2, h3]

/-- Witness for C2: on the spec scenario GET /../../etc/passwd the
canonical candidate /etc/passwd does not start with the canonical root
/srv/www, and the reply is the 403 response even though every file on
traversalFS opens successfully. -/
theorem forbiddenOutsideRoot_witness :
    findPos0 ("/srv/www").data ("/etc/passwd").data = false ∧
    handleGetRequest traversalFS ("./www") ("D") ("/../../etc/passwd") =
      some (sendError 403 ("Forbidden") ("D")) :=
  ⟨by decide,
    forbiddenOutsideRoot traversalFS ("./www") ("D") ("/../../etc/passwd")
      ("/srv/www") ("/etc/passwd") (by decide) (by decide) (by decide)⟩

/-- C3: when both canonicalizations succeed, the containment test passes
and the file opens with the given contents, the reply is the 200 header
block, whose Content-Length field is rendered from exactly the byte length
of the contents, followed after the blank line by a body byte-identical to
the contents (the streamed 4096-byte chunks concatenate back to it). -/
theorem okServesFile (fs : FS) (web_root date path croot cpath contents : String)
    (h1 : fs.canonical web_root = some croot)
    (h2 : fs.canonical (fileSystemPath web_root path) = some cpath)
    (h3 : findPos0 croot.data cpath.data = true)
    (h4 : fs.readFile (fileSystemPath web_root path) = some contents) :
    handleGetRequest fs web_root date path =
      some (okHead (getMimeType (fileSystemPath web_root path)) contents.length ++ date ++
        (okTail ++ contents)) := by
  simp only [handleGetRequest, h1, h2, h3, if_true, h4]
  rw [chunks4096_flatten]

/-- Witness for C3: the ten-byte file hello1234 plus newline under the root
of helloFS is served with status 200, Content-Length 10 and its exact
bytes as the body. -/
theorem okServesFile_witness :
    helloFS.readFile (fileSystemPath ("/www") ("/hello.txt")) = some ("hello1234\n") ∧
    handleGetRequest helloFS ("/www") ("D") ("/hello.txt") =
      some (okHead (getMimeType (fileSystemPath ("/www") ("/hello.txt")))
        ("hello1234\n").length ++ ("D") ++ (okTail ++ ("hello1234\n"))) :=
  ⟨by decide,
    okServesFile helloFS ("/www") ("D") ("/hello.txt") ("/www") ("/www/hello.txt")
      ("hello1234\n") (by decide) (by decide) (by decide) (by decide)⟩

/-- C4: whenever the read succeeded and the parsed method token is not GET,
regardless of the path, the reply is the fixed 405 response; that response
is the literal body Method Not Supported plus newline preceded by a header
block whose declared Content-Length is rendered from the byte length of
that literal body, and that byte length is 21, the hardcoded constant of
line 79 of src/http.cpp. -/
theorem nonGetMethod405 (fs : FS) (web_root date request : String) (bytes_read : Int)
    (hn : 0 < bytes_read)
    (hm : (parseRequestLine (firstLine request)).1 ≠ "GET") :
    handleClient fs web_root date bytes_read request = Outcome.closed methodNotAllowedResponse ∧
    methodNotAllowedResponse =
      "HTTP/1.1 405 Method Not Allowed\r\n" ++ "Content-Type: text/plain\r\n" ++
      "Content-Length: " ++ toString ("Method Not Supported\n").length ++ "\r\n\r\n" ++
      "Method Not Supported\n" ∧
    ("Method Not Supported\n").length = 21 := by
  refine ⟨?_, by decide, by decide⟩
  simp [handleClient, hn, hm]

/-- Witness for C4: a POST request for the root path receives the fixed 405
response. -/
theorem nonGetMethod405_witness :
    (0 : Int) < 17 ∧ (parseRequestLine (firstLine ("POST / HTTP/1.1\r\n"))).1 ≠ "GET" ∧
    handleClient emptyRootFS ("./www") ("D") 17 ("POST / HTTP/1.1\r\n") =
      Outcome.closed methodNotAllowedResponse :=
  ⟨by decide, by decide,
    (nonGetMethod405 emptyRootFS ("./www") ("D") ("POST / HTTP/1.1\r\n") 17
      (by decide) (by decide)).1⟩

/-- C5 counterexample: the raw request consisting of a bare CRLF has a first
line that splits into no tokens at all, so all three fields degrade to
empty strings, yet the result is not a 404: the empty method differs from
GET, so handleClient sends the fixed 405 response, which is not the 404
Not Found response. -/
theorem emptyRequestLineGives405Not404 :
    parseRequestLine (firstLine ("\r\n")) = (("" : String), ("" : String), ("" : String)) ∧
    handleClient emptyRootFS ("./www") ("D") 2 ("\r\n") =
      Outcome.closed methodNotAllowedResponse ∧
    methodNotAllowedResponse ≠ sendError 404 ("Not Found") ("D") := by
  decide

/-- C5 amended: on a request whose first line splits into fewer than three
whitespace-separated tokens (equivalently, the degraded protocol field is
empty) the missing fields are empty strings, and the outcome depends on
the degraded method field: when it is not GET the fixed 405 response is
sent, and a 404 results exactly in the case the claim foresaw, namely a
GET whose degraded path canonicalizes inside the root but fails to open. -/
theorem malformedRequestLineHandling (fs : FS) (web_root date request : String)
    (bytes_read : Int) (hn : 0 < bytes_read)
    (_hmal : (parseRequestLine (firstLine request)).2.2 = "") :
    ((parseRequestLine (firstLine request)).1 ≠ "GET" →
      handleClient fs web_root date bytes_read request =
        Outcome.closed methodNotAllowedResponse) ∧
    ((parseRequestLine (firstLine request)).1 = "GET" →
      ∀ croot cpath : String, fs.canonical web_root = some croot →
        fs.canonical (fileSystemPath web_root (parseRequestLine (firstLine request)).2.1) =
          some cpath →
        findPos0 croot.data cpath.data = true →
        fs.readFile (fileSystemPath web_root (parseRequestLine (firstLine request)).2.1) =
          none →
        handleClient fs web_root date bytes_read request =
          Outcome.closed (sendError 404 ("Not Found") date)) := by
  constructor
  · intro hm
    simp [handleClient, hn, hm]
  · intro hm croot cpath h1 h2 h3 h4
    simp [handleClient, hn, hm, handleGetRequest, h1, h2, h3, h4]

/-- Witness for C5 amended: the request GET followed by CRLF has only one
token, the path and protocol degrade to empty, the degraded filesystem
path is the document root itself, which canonicalizes but does not open as
a file, and the reply is the 404 response. -/
theorem malformedRequestLineHandling_witness :
    (parseRequestLine (firstLine ("GET\r\n"))).2.2 = "" ∧
    handleClient emptyRootFS ("./www") ("D") 5 ("GET\r\n") =
      Outcome.closed (sendError 404 ("Not Found") ("D")) :=
  ⟨by decide,
    (malformedRequestLineHandling emptyRootFS ("./www") ("D") ("GET\r\n") 5
      (by decide) (by decide)).2 (by decide) ("/srv/www") ("/srv/www")
      (by decide) (by decide) (by decide) (by decide)⟩

/-- C7: requesting the root path is answered identically to requesting
/index.html: line 90 of src/http.cpp maps the root path to /index.html
before any filesystem call, so the two GET handlers compute the same
filesystem path and hence the same reply, for every filesystem, root and
date. -/
theorem rootMapsToIndexHtml (fs : FS) (web_root date : String) :
    handleGetRequest fs web_root date ("/") =
      handleGetRequest fs web_root date ("/index.html") := by
  have h : fileSystemPath web_root ("/") = fileSystemPath web_root ("/index.html") := by
    unfold fileSystemPath
    rw [if_pos rfl, if_neg (by decide)]
  simp only [handleGetRequest, h]

/-- Relation between the source extraction (suffix from the last dot, dot
included, as substr of find-last-of produces) and the spec wording (the
substring strictly after the last dot): they fail together, and on success
the source value is the spec value with the dot prepended. -/
theorem extFrom_afterLastDot (cs : List Char) :
    (extFrom cs = none ∧ afterLastDot cs = none) ∨
    ∃ e, extFrom cs = some ('.' :: e) ∧ afterLastDot cs = some e := by
  induction cs with
  | nil => exact Or.inl ⟨rfl, rfl⟩
  | cons c rest ih =>
    rcases ih with ⟨h1, h2⟩ | ⟨e, h1, h2⟩
    · by_cases hc : c = '.'
      · subst hc
        exact Or.inr ⟨rest, by simp [extFrom, h1], by simp [afterLastDot, h2]⟩
      · exact Or.inl ⟨by simp [extFrom, h1, hc], by simp [afterLastDot, h2, hc]⟩
    · exact Or.inr ⟨e, by simp [extFrom, h1], by simp [afterLastDot, h2]⟩

/-- Looking up a dot-prefixed key in the source map of dot-prefixed keys
agrees with looking up the bare key in the spec map. -/
theorem assocFind_dot (e : List Char) :
    assocFind ('.' :: e) mime_types = assocFind e spec_extension_map := by
  simp only [mime_types, spec_extension_map, assocFind,
    show (".html".data : List Char) = '.' :: "html".data from rfl,
    show (".css".data : List Char) = '.' :: "css".data from rfl,
    show (".js".data : List Char) = '.' :: "js".data from rfl,
    show (".json".data : List Char) = '.' :: "json".data from rfl,
    show (".png".data : List Char) = '.' :: "png".data from rfl,
    show (".jpg".data : List Char) = '.' :: "jpg".data from rfl,
    show (".jpeg".data : List Char) = '.' :: "jpeg".data from rfl,
    show (".gif".data : List Char) = '.' :: "gif".data from rfl,
    show (".txt".data : List Char) = '.' :: "txt".data from rfl,
    List.cons.injEq, true_and]

/-- C8: the MIME lookup of the source agrees on every path with the
MimeRegistry contract exactly as the spec words it (substring after the
last dot, fixed mapping, octet-stream fallback); both are total Lean
functions of the path alone, so there are no side effects or failure
modes. -/
theorem getMimeType_matchesSpec (path : String) :
    getMimeType path = specMimeLookup path := by
  unfold getMimeType specMimeLookup
  rcases extFrom_afterLastDot path.data with ⟨h1, h2⟩ | ⟨e, h1, h2⟩
  · simp only [h1, h2]
  · simp only [h1, h2, assocFind_dot]

/-- C9: for every fixed filesystem, root, read result and raw request, the
handler output as a function of the Date value is either literally
constant (read failure, non-GET method, crash) or a fixed byte template
with the date spliced into the single Date header slot; hence two runs of
the same GET against an unchanged filesystem return byte-identical
responses except for the Date header, the timestamp being the only varying
input. -/
theorem responseVariesOnlyInDate (fs : FS) (web_root : String) (bytes_read : Int)
    (request : String) :
    (∀ d1 d2 : String, handleClient fs web_root d1 bytes_read request =
      handleClient fs web_root d2 bytes_read request) ∨
    (∃ pre post : String, ∀ date : String,
      handleClient fs web_root date bytes_read request =
        Outcome.closed (pre ++ date ++ post)) := by
  by_cases hn : 0 < bytes_read
  · by_cases hm : (parseRequestLine (firstLine request)).1 = "GET"
    · cases hroot : fs.canonical web_root with
      | none =>
        exact Or.inl fun d1 d2 => by
          simp [handleClient, hn, hm, handleGetRequest, hroot]
      | some croot =>
        cases hreq : fs.canonical
            (fileSystemPath web_root (parseRequestLine (firstLine request)).2.1) with
        | none =>
          exact Or.inl fun d1 d2 => by
            simp [handleClient, hn, hm, handleGetRequest, hroot, hreq]
        | some cpath =>
          cases hpre : findPos0 croot.data cpath.data with
          | false =>
            refine Or.inr ⟨sendErrorHead 403 ("Forbidden"),
              sendErrorTail 403 ("Forbidden"), fun date => ?_⟩
            simp [handleClient, hn, hm, handleGetRequest, hroot, hreq, hpre, sendError]
          | true =>
            cases hread : fs.readFile
                (fileSystemPath web_root (parseRequestLine (firstLine request)).2.1) with
            | none =>
              refine Or.inr ⟨sendErrorHead 404 ("Not Found"),
                sendErrorTail 404 ("Not Found"), fun date => ?_⟩
              simp [handleClient, hn, hm, handleGetRequest, hroot, hreq, hpre, hread,
                sendError]
            | some contents =>
              refine Or.inr ⟨okHead
                  (getMimeType (fileSystemPath web_root
                    (parseRequestLine (firstLine request)).2.1)) contents.length,
                okTail ++ String.mk (chunks4096 contents.data).flatten, fun date => ?_⟩
              simp [handleClient, hn, hm, handleGetRequest, hroot, hreq, hpre, hread]
    · exact Or.inl fun d1 d2 => by simp [handleClient, hn, hm]
  · exact Or.inl fun d1 d2 => by simp [handleClient, hn]

/-- Membership in the lookup map never holds when the key differs from
every stored key. -/
theorem assocFind_eq_none (key : List Char) (l : List (List Char × String))
    (h : ∀ kv ∈ l, key ≠ kv.1) : assocFind key l = none := by
  induction l with
  | nil => rfl
  | cons kv rest ih =>
    obtain ⟨k, v⟩ := kv
    simp only [assocFind]
    rw [if_neg (h (k, v) (List.mem_cons_self _ _))]
    exact ih fun kv2 hm => h kv2 (List.mem_cons_of_mem _ hm)

/-- C10: extension matching is an exact byte comparison on the suffix from
the last dot of the full path string: whenever that suffix either contains
a slash (the last dot lies in a directory component) or differs from a
stored dot-prefixed key only in letter case without being equal to it, the
lookup misses every key and getMimeType returns the generic octet-stream
type. -/
theorem mimeLookupExactMatch (path : String) (e : List Char)
    (hext : extFrom path.data = some e)
    (hbad : ('/' ∈ e) ∨ ∃ kv ∈ mime_types, e ≠ kv.1 ∧ lowerEq e kv.1) :
    getMimeType path = "application/octet-stream" := by
  have hnone : assocFind e mime_types = none := by
    apply assocFind_eq_none
    intro kv hkv heq
    rcases hbad with hslash | ⟨kv2, hkv2, hne, hlow⟩
    · have hnoslash : ∀ kv ∈ mime_types, ¬ ('/' : Char) ∈ kv.1 := by decide
      exact hnoslash kv hkv (heq ▸ hslash)
    · have hlower : ∀ kv ∈ mime_types, kv.1.map Char.toLower = kv.1 := by decide
      have he : e.map Char.toLower = e := by rw [heq]; exact hlower kv hkv
      exact hne (by rw [← he, hlow, hlower kv2 hkv2])
  simp only [getMimeType, hext, hnone]

/-- Witness for C10: the path /page.HTML has the suffix .HTML from its last
dot, which differs from the stored key .html only in letter case, and the
lookup returns the octet-stream fallback rather than text/html. -/
theorem mimeLookupExactMatch_witness :
    extFrom ("/page.HTML").data = some (".HTML").data ∧
    getMimeType ("/page.HTML") = "application/octet-stream" :=
  ⟨by decide,
    mimeLookupExactMatch ("/page.HTML") (".HTML").data (by decide)
      (Or.inr ⟨(".html".data, "text/html"), by decide, by decide, rfl⟩)⟩

end CppHttpServer
